import Mathlib

/-!
# Verification of the metrics-simulator calculation engine

A shallow embedding of `src/lib/calculations.ts` over exact rational
arithmetic.  JavaScript numbers are modelled by `ℚ`; a possibly-missing
numeric field (`undefined`/`null`/`NaN`) is `Option ℚ`, and the JS idiom
`x || d` (which replaces `0`, `NaN`, `null` and `undefined` by `d`) is
`jsOr`.  `Math.ceil`/`Math.floor`/`Math.round` are the exact integer
rounding functions on `ℚ`.  `Math.log10` is transcendental, so the whole
engine is parametrised by an arbitrary `log10 : ℚ → ℚ`; every theorem
holds for every choice of that parameter (concrete evaluations pick
inputs whose log arguments are exactly `1`, or do not touch the CPU
estimator at all, so nothing depends on the value of the logarithm).
Presentation-only pieces of the source (the `unit` and `explanation`
strings of a `Resource`, and the free-text recommendation of the
scaling explorer) are not modelled; every numeric field is.
-/

namespace Simulator

/-- JS `x || d` on an optional numeric field: `none` models
`undefined`/`null`/`NaN` (all falsy), and `0` is falsy as well. -/
def jsOr (x : Option ℚ) (d : ℚ) : ℚ :=
  match x with
  | none => d
  | some v => if v = 0 then d else v

/-- `Math.ceil (x * 10) / 10` - round up to one decimal, as used by the
CPU, memory, storage, disk and network estimators of the source. -/
def ceil10 (x : ℚ) : ℚ := ((⌈x * 10⌉ : ℤ) : ℚ) / 10

/-- JS `Math.round`: round half toward positive infinity. -/
def jsRound (x : ℚ) : ℚ := ((⌊x + 1/2⌋ : ℤ) : ℚ)

/-- Raw `WorkloadParams` as the engine may receive them: every field can
be absent. -/
structure RawWorkload where
  requestsPerSecond : Option ℚ := none
  metricsPerRequest : Option ℚ := none
  uniqueMetricsRatio : Option ℚ := none
  calculationComplexity : Option ℚ := none
  flushIntervalSeconds : Option ℚ := none
  retentionPeriodDays : Option ℚ := none
deriving DecidableEq

/-- The empty raw workload record (`{}` in JS). -/
def RawWorkload.empty : RawWorkload := {}

/-- Raw `UserResources` as the engine may receive them. -/
structure RawResources where
  cpu : Option ℚ := none
  memory : Option ℚ := none
  diskIo : Option ℚ := none
  networkIo : Option ℚ := none
  storage : Option ℚ := none
  statsdInstances : Option ℚ := none
  carbonInstances : Option ℚ := none
deriving DecidableEq

/-- The empty raw resources record (`{}` in JS). -/
def RawResources.empty : RawResources := {}

/-- `safeWorkload` of the source: fully populated workload record. -/
structure SafeWorkload where
  requestsPerSecond : ℚ
  metricsPerRequest : ℚ
  uniqueMetricsRatio : ℚ
  calculationComplexity : ℚ
  flushIntervalSeconds : ℚ
  retentionPeriodDays : ℚ
deriving DecidableEq

/-- `safeResources` of the source: fully populated resources record. -/
structure SafeResources where
  cpu : ℚ
  memory : ℚ
  diskIo : ℚ
  networkIo : ℚ
  storage : ℚ
  statsdInstances : ℚ
  carbonInstances : ℚ
deriving DecidableEq

/-- The input normalizer for the workload record
(`calculations.ts`, `safeWorkload`, lines 18-28).  A missing record is
`none` and behaves as an empty object. -/
def normalizeWorkload (workload : Option RawWorkload) : SafeWorkload :=
  { requestsPerSecond :=
      max 0 (jsOr (Option.bind workload RawWorkload.requestsPerSecond) 0)
    metricsPerRequest :=
      max 0 (jsOr (Option.bind workload RawWorkload.metricsPerRequest) 0)
    uniqueMetricsRatio :=
      min 1 (max 0 (jsOr (Option.bind workload RawWorkload.uniqueMetricsRatio) 0.2))
    calculationComplexity :=
      max 1 (jsOr (Option.bind workload RawWorkload.calculationComplexity) 1)
    flushIntervalSeconds :=
      max 1 (jsOr (Option.bind workload RawWorkload.flushIntervalSeconds) 10)
    retentionPeriodDays :=
      max 1 (jsOr (Option.bind workload RawWorkload.retentionPeriodDays) 1) }

/-- The input normalizer for the resources record
(`calculations.ts`, `safeResources`, lines 30-38). -/
def normalizeResources (userResources : Option RawResources) : SafeResources :=
  { cpu := max 0.1 (jsOr (Option.bind userResources RawResources.cpu) 1)
    memory := max 0.1 (jsOr (Option.bind userResources RawResources.memory) 1)
    diskIo := max 1 (jsOr (Option.bind userResources RawResources.diskIo) 10)
    networkIo := max 1 (jsOr (Option.bind userResources RawResources.networkIo) 10)
    storage := max 1 (jsOr (Option.bind userResources RawResources.storage) 10)
    statsdInstances := max 1 (jsOr (Option.bind userResources RawResources.statsdInstances) 1)
    carbonInstances := max 1 (jsOr (Option.bind userResources RawResources.carbonInstances) 1) }

/-- `totalMetricsPerSecond = requestsPerSecond * metricsPerRequest`. -/
def totalMetricsPerSecond (sw : SafeWorkload) : ℚ :=
  sw.requestsPerSecond * sw.metricsPerRequest

/-- `uniqueMetricsPerSecond = Math.ceil(totalMetricsPerSecond * uniqueMetricsRatio)`. -/
def uniqueMetricsPerSecond (sw : SafeWorkload) : ℚ :=
  ((⌈totalMetricsPerSecond sw * sw.uniqueMetricsRatio⌉ : ℤ) : ℚ)

/-- `writesPerSecond = uniqueMetricsPerSecond` (steady state). -/
def writesPerSecond (sw : SafeWorkload) : ℚ := uniqueMetricsPerSecond sw

/-- `metricsPerInstance = Math.ceil(totalMetricsPerSecond / statsdInstances)`. -/
def metricsPerInstance (sw : SafeWorkload) (sr : SafeResources) : ℚ :=
  ((⌈totalMetricsPerSecond sw / sr.statsdInstances⌉ : ℤ) : ℚ)

/-- `writesPerInstance = Math.ceil(writesPerSecond / carbonInstances)`. -/
def writesPerInstance (sw : SafeWorkload) (sr : SafeResources) : ℚ :=
  ((⌈writesPerSecond sw / sr.carbonInstances⌉ : ℤ) : ℚ)

/-- Average metric size in bytes (source line 57). -/
def avgMetricSizeBytes : ℚ := 50

/-- `totalStatsDLoad = totalMetricsPerSecond / 10000`. -/
def totalStatsDLoad (sw : SafeWorkload) : ℚ := totalMetricsPerSecond sw / 10000

/-- Single-instance StatsD CPU cost (source lines 68-69). -/
def singleInstanceStatsDCpu (log10 : ℚ → ℚ) (sw : SafeWorkload) : ℚ :=
  totalStatsDLoad sw * (1 + log10 (max 1 (totalStatsDLoad sw))) * 0.6

/-- `totalWriteLoad = writesPerSecond / 5000`. -/
def totalWriteLoad (sw : SafeWorkload) : ℚ := writesPerSecond sw / 5000

/-- Single-instance Carbon CPU cost (source lines 73-74). -/
def singleInstanceCarbonCpu (log10 : ℚ → ℚ) (sw : SafeWorkload) : ℚ :=
  totalWriteLoad sw * (1 + log10 (max 1 (totalWriteLoad sw))) * 1.2

/-- 1.5% coordination overhead per additional StatsD instance. -/
def statsdCoordinationOverhead : ℚ := 0.015

/-- 1% coordination overhead per additional Carbon instance. -/
def carbonCoordinationOverhead : ℚ := 0.01

/-- Effective StatsD CPU with horizontal scaling (source lines 84-88). -/
def statsdCpuCores (log10 : ℚ → ℚ) (sw : SafeWorkload) (sr : SafeResources) : ℚ :=
  singleInstanceStatsDCpu log10 sw / sr.statsdInstances +
    singleInstanceStatsDCpu log10 sw * statsdCoordinationOverhead *
      (sr.statsdInstances - 1)

/-- Effective Carbon CPU with horizontal scaling (source lines 90-94). -/
def carbonCpuCores (log10 : ℚ → ℚ) (sw : SafeWorkload) (sr : SafeResources) : ℚ :=
  singleInstanceCarbonCpu log10 sw / sr.carbonInstances +
    singleInstanceCarbonCpu log10 sw * carbonCoordinationOverhead *
      (sr.carbonInstances - 1)

/-- Graphite web CPU cost (source lines 96-99). -/
def graphiteCpuCores (sw : SafeWorkload) : ℚ :=
  sw.calculationComplexity / 5 * (1 + sw.calculationComplexity / 10) * 0.4

/-- `totalCpuRequired = Math.max(0.1, statsd + carbon + graphite)`. -/
def totalCpuRequired (log10 : ℚ → ℚ) (sw : SafeWorkload) (sr : SafeResources) : ℚ :=
  max 0.1 (statsdCpuCores log10 sw sr + carbonCpuCores log10 sw sr + graphiteCpuCores sw)

/-- Average bytes per metric in memory (source line 109). -/
def bytesPerMetricInMemory : ℚ := 150

/-- Single-instance StatsD memory in GB (source lines 112-117). -/
def singleInstanceStatsDMemory (sw : SafeWorkload) : ℚ :=
  uniqueMetricsPerSecond sw * sw.flushIntervalSeconds * bytesPerMetricInMemory * 1.2 /
    (1024 * 1024 * 1024)

/-- Single-instance Carbon memory in GB (source lines 119-121). -/
def singleInstanceCarbonMemory (sw : SafeWorkload) : ℚ :=
  uniqueMetricsPerSecond sw * 10 * bytesPerMetricInMemory / (1024 * 1024 * 1024)

/-- 50MB fixed overhead per StatsD instance. -/
def statsdInstanceOverhead : ℚ := 0.05

/-- 75MB fixed overhead per Carbon instance. -/
def carbonInstanceOverhead : ℚ := 0.075

/-- 15% efficiency gain with multiple instances. -/
def memoryEfficiency : ℚ := 0.85

/-- StatsD memory with distributed workload (source lines 141-144). -/
def statsdMemoryGB (sw : SafeWorkload) (sr : SafeResources) : ℚ :=
  singleInstanceStatsDMemory sw * memoryEfficiency / sr.statsdInstances +
    statsdInstanceOverhead * sr.statsdInstances

/-- `writeLoadFactor = Math.min(1.2, 1 + (writesPerInstance / 10000) * 0.2)`. -/
def writeLoadFactor (sw : SafeWorkload) (sr : SafeResources) : ℚ :=
  min 1.2 (1 + writesPerInstance sw sr / 10000 * 0.2)

/-- Carbon memory with distributed workload (source lines 151-155). -/
def carbonMemoryGB (sw : SafeWorkload) (sr : SafeResources) : ℚ :=
  singleInstanceCarbonMemory sw * memoryEfficiency / sr.carbonInstances *
      writeLoadFactor sw sr +
    carbonInstanceOverhead * sr.carbonInstances

/-- Plateau cap for StatsD memory (source lines 160-163). -/
def effectiveStatsDMemory (sw : SafeWorkload) (sr : SafeResources) : ℚ :=
  min (statsdMemoryGB sw sr)
    (singleInstanceStatsDMemory sw * 0.4 + statsdInstanceOverhead)

/-- Plateau cap for Carbon memory (source lines 164-167). -/
def effectiveCarbonMemory (sw : SafeWorkload) (sr : SafeResources) : ℚ :=
  min (carbonMemoryGB sw sr)
    (singleInstanceCarbonMemory sw * 0.4 + carbonInstanceOverhead)

/-- Base 512MB for the Graphite JVM. -/
def baseGraphiteMemory : ℚ := 0.5

/-- Graphite memory (source lines 171-175). -/
def graphiteMemoryGB (sw : SafeWorkload) : ℚ :=
  baseGraphiteMemory +
    sw.calculationComplexity / 5 * (1 + uniqueMetricsPerSecond sw / 100000) * 2

/-- `totalMemoryRequired = Math.max(0.5, statsd + carbon + graphite)`. -/
def totalMemoryRequired (sw : SafeWorkload) (sr : SafeResources) : ℚ :=
  max 0.5 (effectiveStatsDMemory sw sr + effectiveCarbonMemory sw sr + graphiteMemoryGB sw)

/-- Base IOPS per write operation. -/
def baseIopsPerWrite : ℚ := 2.5

/-- `randomIoFactor = 1 + (uniqueMetricsPerSecond / 6000) * 0.4`. -/
def randomIoFactor (sw : SafeWorkload) : ℚ :=
  1 + uniqueMetricsPerSecond sw / 6000 * 0.4

/-- 0.5% coordination overhead per Carbon instance for disk distribution. -/
def ioCoordinationOverhead : ℚ := 0.005

/-- Disk scaling factor (source lines 194-196). -/
def diskScalingFactor (sr : SafeResources) : ℚ :=
  1 / sr.carbonInstances * (1 + ioCoordinationOverhead * (sr.carbonInstances - 1))

/-- `effectiveIopsPerWrite = baseIopsPerWrite * randomIoFactor * diskScalingFactor`. -/
def effectiveIopsPerWrite (sw : SafeWorkload) (sr : SafeResources) : ℚ :=
  baseIopsPerWrite * randomIoFactor sw * diskScalingFactor sr

/-- Typical filesystem block size. -/
def effectiveBlockSize : ℚ := 4096

/-- 15% overhead for filesystem metadata. -/
def metadataOverhead : ℚ := 1.15

/-- `bytesPerOperation = Math.ceil(100 / blockSize) * blockSize * metadataOverhead`. -/
def bytesPerOperation : ℚ :=
  ((⌈(100 : ℚ) / effectiveBlockSize⌉ : ℤ) : ℚ) * effectiveBlockSize * metadataOverhead

/-- `diskIopsRequired = writesPerSecond * effectiveIopsPerWrite`. -/
def diskIopsRequired (sw : SafeWorkload) (sr : SafeResources) : ℚ :=
  writesPerSecond sw * effectiveIopsPerWrite sw sr

/-- Reported disk throughput in MB/s (source lines 207-209). -/
def diskIORequired (sw : SafeWorkload) (sr : SafeResources) : ℚ :=
  ((⌈diskIopsRequired sw sr * bytesPerOperation / (1024 * 1024) * 10⌉ : ℤ) : ℚ) / 10

/-- 1% overhead for client load balancing. -/
def clientToStatsDOverhead : ℚ := 0.01

/-- Client to StatsD traffic in Mbps (source lines 222-223). -/
def clientStatsDTraffic (sw : SafeWorkload) : ℚ :=
  totalMetricsPerSecond sw * avgMetricSizeBytes * 8 / (1024 * 1024)

/-- Per-instance StatsD inbound traffic (source lines 224-226, only used
by the explanation string in the source). -/
def perInstanceStatsDInbound (sw : SafeWorkload) (sr : SafeResources) : ℚ :=
  clientStatsDTraffic sw / sr.statsdInstances *
    (1 + clientToStatsDOverhead * (sr.statsdInstances - 1))

/-- StatsD aggregation shrinks traffic to 30%. -/
def statsdToCarbonRatio : ℚ := 0.3

/-- 0.5% coordination overhead per node. -/
def interNodeOverhead : ℚ := 0.005

/-- `statsdToCarbonTraffic = clientStatsDTraffic * statsdToCarbonRatio`. -/
def statsdToCarbonTraffic (sw : SafeWorkload) : ℚ :=
  clientStatsDTraffic sw * statsdToCarbonRatio

/-- Per-instance Carbon inbound traffic (source lines 237-244, only used
by the explanation string in the source). -/
def perInstanceCarbonInbound (sw : SafeWorkload) (sr : SafeResources) : ℚ :=
  statsdToCarbonTraffic sw / sr.carbonInstances *
    (1 + interNodeOverhead * max 1 (sr.statsdInstances + sr.carbonInstances - 2))

/-- `queryTrafficMbps = clientStatsDTraffic * 0.05 * calculationComplexity`. -/
def queryTrafficMbps (sw : SafeWorkload) : ℚ :=
  clientStatsDTraffic sw * 0.05 * sw.calculationComplexity

/-- `maxInboundTraffic = Math.max(clientStatsDTraffic, statsdToCarbonTraffic)`. -/
def maxInboundTraffic (sw : SafeWorkload) : ℚ :=
  max (clientStatsDTraffic sw) (statsdToCarbonTraffic sw)

/-- Reported network bandwidth in Mbps (source lines 259-260). -/
def totalNetworkRequired (sw : SafeWorkload) : ℚ :=
  ((⌈(maxInboundTraffic sw + queryTrafficMbps sw) * 10⌉ : ℤ) : ℚ) / 10

/-- 4 bytes timestamp + 8 bytes value per stored point. -/
def bytesPerStoredPoint : ℚ := 12

/-- Points per metric per day at 10-second resolution. -/
def pointsPerMetricPerDay : ℚ := 86400 / 10

/-- Daily storage growth in GB (source lines 266-268). -/
def dailyStorageGB (sw : SafeWorkload) : ℚ :=
  uniqueMetricsPerSecond sw * pointsPerMetricPerDay * bytesPerStoredPoint /
    (1024 * 1024 * 1024)

/-- The status classifier shared by every estimator. -/
inductive RStatus where
  | healthy
  | warning
  | critical
deriving DecidableEq

/-- `getResourceStatus` (source lines 272-280). -/
def getResourceStatus (required available : ℚ) : RStatus :=
  if required / available > 0.9 then RStatus.critical
  else if required / available > 0.7 then RStatus.warning
  else RStatus.healthy

/-- A `Resource` record.  The `unit` and `explanation` strings of the
source are presentation-only and not modelled. -/
structure Resource where
  value : ℚ
  status : RStatus
  utilization : ℚ
deriving DecidableEq

/-- The fixed-key map of the five resources. -/
structure ResourceRequirements where
  cpu : Resource
  memory : Resource
  diskIo : Resource
  networkIo : Resource
  storage : Resource
deriving DecidableEq

/-- Derived flow metrics. -/
structure FlowMetrics where
  totalMetricsPerSecond : ℚ
  uniqueMetricsPerSecond : ℚ
  writesPerSecond : ℚ
  storagePerDay : ℚ
  metricsPerInstance : ℚ
  writesPerInstance : ℚ
  totalStorageRequired : ℚ
deriving DecidableEq

/-- Result of a single estimation call. -/
structure CalcResult where
  requirements : ResourceRequirements
  flowMetrics : FlowMetrics
deriving DecidableEq

/-- `calculateResourceRequirements` (source lines 13-378), assembled from
the definitions above, parametrised by `log10`. -/
def calculateResourceRequirements (log10 : ℚ → ℚ)
    (workload : Option RawWorkload) (userResources : Option RawResources) :
    CalcResult :=
  let sw := normalizeWorkload workload
  let sr := normalizeResources userResources
  { requirements :=
      { cpu :=
          { value := ceil10 (totalCpuRequired log10 sw sr)
            status := getResourceStatus (totalCpuRequired log10 sw sr) sr.cpu
            utilization := totalCpuRequired log10 sw sr / sr.cpu }
        memory :=
          { value := ceil10 (totalMemoryRequired sw sr)
            status := getResourceStatus (totalMemoryRequired sw sr) sr.memory
            utilization := totalMemoryRequired sw sr / sr.memory }
        diskIo :=
          { value := diskIORequired sw sr
            status := getResourceStatus (diskIORequired sw sr) sr.diskIo
            utilization := diskIORequired sw sr / sr.diskIo }
        networkIo :=
          { value := totalNetworkRequired sw
            status := getResourceStatus (totalNetworkRequired sw) sr.networkIo
            utilization := totalNetworkRequired sw / sr.networkIo }
        storage :=
          { value := ceil10 (dailyStorageGB sw)
            status := getResourceStatus (dailyStorageGB sw * sw.retentionPeriodDays) sr.storage
            utilization := dailyStorageGB sw * sw.retentionPeriodDays / sr.storage } }
    flowMetrics :=
      { totalMetricsPerSecond := totalMetricsPerSecond sw
        uniqueMetricsPerSecond := uniqueMetricsPerSecond sw
        writesPerSecond := writesPerSecond sw
        storagePerDay := dailyStorageGB sw
        metricsPerInstance := metricsPerInstance sw sr
        writesPerInstance := writesPerInstance sw sr
        totalStorageRequired := dailyStorageGB sw * sw.retentionPeriodDays } }

/-- Lookahead of the regex `(\d{3})+(?!\d)` used by `formatNumber`:
succeeds on a list that starts with a positive number of groups of three
digit characters followed by a non-digit or the end. -/
def look3 : List Char → Bool
  | [a, b, c] => a.isDigit && b.isDigit && c.isDigit
  | a :: b :: c :: d :: rest =>
    a.isDigit && b.isDigit && c.isDigit && (!d.isDigit || look3 (d :: rest))
  | _ => false

/-- Is a character a JS word character (`\w`, i.e. `[A-Za-z0-9_]`)? -/
def isWordChar (c : Char) : Bool := c.isAlphanum || c = '_'

/-- One pass of `str.replace(/\B(?=(\d{3})+(?!\d))/g, ",")` over the tail
of the string: `prev` is the previous character.  A comma is inserted at
a position exactly when the position is not a word boundary (`\B`) and
the lookahead `(?=(\d{3})+(?!\d))` succeeds there; since the lookahead
forces the next character to be a digit (a word character), `\B` amounts
to the previous character being a word character. -/
def insertCommas : Char → List Char → List Char
  | _, [] => []
  | prev, c :: rest =>
    if isWordChar prev && look3 (c :: rest) then
      ',' :: c :: insertCommas c rest
    else
      c :: insertCommas c rest

/-- `formatNumber` (source lines 383-385) on the decimal string rendering
of its numeric argument (the result of JS `num.toString()`).  The regex
can never insert a comma before the first character: the lookahead
requires a digit there, and a digit at the start of the string is a word
boundary, not `\B`. -/
def formatNumber (s : String) : String :=
  match s.toList with
  | [] => s
  | c :: rest => String.mk (c :: insertCommas c rest)

/-- Collector (StatsD) sweep record of `validateInstanceScaling`. -/
structure CollectorScaling where
  instances : List ℚ
  metricsPerInstance : List ℚ
  cpuEfficiency : List ℚ
  memoryEfficiency : List ℚ
  networkOverhead : List ℚ
deriving DecidableEq

/-- Processor (Carbon) sweep record of `validateInstanceScaling`. -/
structure ProcessorScaling where
  instances : List ℚ
  writesPerInstance : List ℚ
  cpuEfficiency : List ℚ
  memoryEfficiency : List ℚ
  diskIoEfficiency : List ℚ
deriving DecidableEq

/-- Numeric analysis summary of `validateInstanceScaling`.  The free-text
`combinedScalingRecommendation` of the source is presentation-only and
not modelled. -/
structure ScalingSummary where
  collectorIdealCount : ℚ
  processorIdealCount : ℚ
  collectorEfficiencyGain : ℚ
  processorEfficiencyGain : ℚ
deriving DecidableEq

/-- Result of `validateInstanceScaling`. -/
structure ScalingAnalysis where
  collectorScaling : CollectorScaling
  processorScaling : ProcessorScaling
  analysis : ScalingSummary
deriving DecidableEq

/-- The swept instance counts `1..8`. -/
def sweepCounts : List ℚ := [1, 2, 3, 4, 5, 6, 7, 8]

/-- The best-efficiency search loop of `validateInstanceScaling`
(source lines 575-600): scan `(count, efficiency)` pairs keeping the
lowest efficiency seen so far (strictly lower than the running best,
which starts at `1.0`) together with its count (which starts at `1`). -/
def bestLoop : List (ℚ × ℚ) → ℚ → ℚ → ℚ × ℚ
  | [], bestEff, ideal => (bestEff, ideal)
  | p :: rest, bestEff, ideal =>
    if p.2 < bestEff then bestLoop rest p.2 p.1 else bestLoop rest bestEff ideal

/-- `baselineResult` of `validateInstanceScaling`: both instance counts
forced to `1` on top of the current resources. -/
def baselineResult (log10 : ℚ → ℚ) (workload : Option RawWorkload)
    (base : RawResources) : CalcResult :=
  calculateResourceRequirements log10 workload
    (some { base with statsdInstances := some 1, carbonInstances := some 1 })

/-- The collector (StatsD) sweep: recompute the full requirement set for
each instance count, holding Carbon at 1. -/
def collectorResults (log10 : ℚ → ℚ) (workload : Option RawWorkload)
    (base : RawResources) : List CalcResult :=
  sweepCounts.map fun instances =>
    calculateResourceRequirements log10 workload
      (some { base with statsdInstances := some instances, carbonInstances := some 1 })

/-- The processor (Carbon) sweep: recompute the full requirement set for
each instance count, holding StatsD at 1. -/
def processorResults (log10 : ℚ → ℚ) (workload : Option RawWorkload)
    (base : RawResources) : List CalcResult :=
  sweepCounts.map fun instances =>
    calculateResourceRequirements log10 workload
      (some { base with statsdInstances := some 1, carbonInstances := some instances })

/-- Collector-sweep CPU-per-10k-metrics ratio against the baseline. -/
def collectorCpuEfficiency (log10 : ℚ → ℚ) (workload : Option RawWorkload)
    (base : RawResources) : List ℚ :=
  (collectorResults log10 workload base).map fun result =>
    result.requirements.cpu.value / (result.flowMetrics.totalMetricsPerSecond / 10000) /
      ((baselineResult log10 workload base).requirements.cpu.value /
        ((baselineResult log10 workload base).flowMetrics.totalMetricsPerSecond / 10000))

/-- Collector-sweep memory-per-unique-metric ratio against the baseline. -/
def collectorMemoryEfficiency (log10 : ℚ → ℚ) (workload : Option RawWorkload)
    (base : RawResources) : List ℚ :=
  (collectorResults log10 workload base).map fun result =>
    result.requirements.memory.value / result.flowMetrics.uniqueMetricsPerSecond /
      ((baselineResult log10 workload base).requirements.memory.value /
        (baselineResult log10 workload base).flowMetrics.uniqueMetricsPerSecond)

/-- Collector-sweep network ratio against the baseline. -/
def collectorNetworkOverhead (log10 : ℚ → ℚ) (workload : Option RawWorkload)
    (base : RawResources) : List ℚ :=
  (collectorResults log10 workload base).map fun result =>
    result.requirements.networkIo.value /
      (baselineResult log10 workload base).requirements.networkIo.value

/-- Processor-sweep CPU-per-write ratio against the baseline. -/
def processorCpuEfficiency (log10 : ℚ → ℚ) (workload : Option RawWorkload)
    (base : RawResources) : List ℚ :=
  (processorResults log10 workload base).map fun result =>
    result.requirements.cpu.value / result.flowMetrics.writesPerSecond /
      ((baselineResult log10 workload base).requirements.cpu.value /
        (baselineResult log10 workload base).flowMetrics.writesPerSecond)

/-- Processor-sweep memory-per-unique-metric ratio against the baseline. -/
def processorMemoryEfficiency (log10 : ℚ → ℚ) (workload : Option RawWorkload)
    (base : RawResources) : List ℚ :=
  (processorResults log10 workload base).map fun result =>
    result.requirements.memory.value / result.flowMetrics.uniqueMetricsPerSecond /
      ((baselineResult log10 workload base).requirements.memory.value /
        (baselineResult log10 workload base).flowMetrics.uniqueMetricsPerSecond)

/-- Processor-sweep disk-I/O ratio against the baseline. -/
def processorDiskIoEfficiency (log10 : ℚ → ℚ) (workload : Option RawWorkload)
    (base : RawResources) : List ℚ :=
  (processorResults log10 workload base).map fun result =>
    result.requirements.diskIo.value /
      (baselineResult log10 workload base).requirements.diskIo.value

/-- `validateInstanceScaling` (source lines 439-651), numeric parts. -/
def validateInstanceScaling (log10 : ℚ → ℚ)
    (workload : Option RawWorkload) (currentResources : Option RawResources) :
    ScalingAnalysis :=
  let base := Option.getD currentResources RawResources.empty
  let collectorBest := bestLoop (List.zip sweepCounts (collectorCpuEfficiency log10 workload base)) 1 1
  let processorBest := bestLoop (List.zip sweepCounts (processorDiskIoEfficiency log10 workload base)) 1 1
  { collectorScaling :=
      { instances := sweepCounts
        metricsPerInstance := (collectorResults log10 workload base).map fun result =>
          result.flowMetrics.metricsPerInstance
        cpuEfficiency := collectorCpuEfficiency log10 workload base
        memoryEfficiency := collectorMemoryEfficiency log10 workload base
        networkOverhead := collectorNetworkOverhead log10 workload base }
    processorScaling :=
      { instances := sweepCounts
        writesPerInstance := (processorResults log10 workload base).map fun result =>
          result.flowMetrics.writesPerInstance
        cpuEfficiency := processorCpuEfficiency log10 workload base
        memoryEfficiency := processorMemoryEfficiency log10 workload base
        diskIoEfficiency := processorDiskIoEfficiency log10 workload base }
    analysis :=
      { collectorIdealCount := collectorBest.2
        processorIdealCount := processorBest.2
        collectorEfficiencyGain := jsRound ((1 - collectorBest.1) * 100 * 10) / 10
        processorEfficiencyGain := jsRound ((1 - processorBest.1) * 100 * 10) / 10 } }

/-- The status classifier characterised, as in the spec:
`critical` iff utilization exceeds 0.9, `warning` iff it lies in
(0.7, 0.9], `healthy` iff it is at most 0.7. -/
def statusSpec (res : Resource) : Prop :=
  (res.status = RStatus.critical ↔ 0.9 < res.utilization) ∧
  (res.status = RStatus.warning ↔ 0.7 < res.utilization ∧ res.utilization ≤ 0.9) ∧
  (res.status = RStatus.healthy ↔ res.utilization ≤ 0.7)

/-- The CPU estimator per the specification text: per-tier
single-instance cost `(load/unit) * (1 + log10 (max 1 (load/unit))) * k`. -/
def cpuTierCostSpec (log10 : ℚ → ℚ) (load unit k : ℚ) : ℚ :=
  load / unit * (1 + log10 (max 1 (load / unit))) * k

/-- The CPU estimator per the specification text: horizontal
distribution `tierCost/instances + tierCost * overheadRate * (instances - 1)`. -/
def cpuDistributedSpec (tierCost instances overheadRate : ℚ) : ℚ :=
  tierCost / instances + tierCost * overheadRate * (instances - 1)

/-- The CPU estimator per the specification text: fixed visualization
tier cost `(complexity/5) * (1 + complexity/10) * 0.4`. -/
def cpuFixedSpec (complexity : ℚ) : ℚ :=
  complexity / 5 * (1 + complexity / 10) * 0.4

/-- The CPU estimator per the specification text: sum the collector tier
(unit 10000, k 0.6, overhead 1.5%), writer tier (unit 5000, k 1.2,
overhead 1%) and the fixed tier, then floor at 0.1 core. -/
def cpuTotalSpec (log10 : ℚ → ℚ) (sw : SafeWorkload) (sr : SafeResources) : ℚ :=
  max 0.1
    (cpuDistributedSpec (cpuTierCostSpec log10 (totalMetricsPerSecond sw) 10000 0.6)
        sr.statsdInstances 0.015 +
      cpuDistributedSpec (cpuTierCostSpec log10 (writesPerSecond sw) 5000 1.2)
        sr.carbonInstances 0.01 +
      cpuFixedSpec sw.calculationComplexity)

theorem ceil_as_floor (x : ℚ) : (⌈x⌉ : ℤ) = -⌊-x⌋ := by
  rw [Int.floor_neg, neg_neg]

theorem le_ceil10 (x : ℚ) : x ≤ ceil10 x := by
  unfold ceil10
  rw [le_div_iff₀ (by norm_num : (0:ℚ) < 10)]
  exact Int.le_ceil (x * 10)

theorem ceil10_mono {x y : ℚ} (h : x ≤ y) : ceil10 x ≤ ceil10 y := by
  unfold ceil10
  have hc : (⌈x * 10⌉ : ℤ) ≤ ⌈y * 10⌉ := Int.ceil_le_ceil (by linarith)
  have hq : ((⌈x * 10⌉ : ℤ) : ℚ) ≤ ((⌈y * 10⌉ : ℤ) : ℚ) := by exact_mod_cast hc
  linarith

theorem ceil10_nonneg {x : ℚ} (h : 0 ≤ x) : 0 ≤ ceil10 x :=
  le_trans h (le_ceil10 x)

theorem nw_rps_nonneg (w : Option RawWorkload) :
    0 ≤ (normalizeWorkload w).requestsPerSecond := le_max_left 0 _

theorem nw_mpr_nonneg (w : Option RawWorkload) :
    0 ≤ (normalizeWorkload w).metricsPerRequest := le_max_left 0 _

theorem nw_uratio_nonneg (w : Option RawWorkload) :
    0 ≤ (normalizeWorkload w).uniqueMetricsRatio :=
  le_min (by norm_num) (le_max_left 0 _)

theorem nw_uratio_le_one (w : Option RawWorkload) :
    (normalizeWorkload w).uniqueMetricsRatio ≤ 1 := min_le_left 1 _

theorem nw_complexity_one_le (w : Option RawWorkload) :
    1 ≤ (normalizeWorkload w).calculationComplexity := le_max_left 1 _

theorem nw_flush_one_le (w : Option RawWorkload) :
    1 ≤ (normalizeWorkload w).flushIntervalSeconds := le_max_left 1 _

theorem nw_retention_one_le (w : Option RawWorkload) :
    1 ≤ (normalizeWorkload w).retentionPeriodDays := le_max_left 1 _

theorem nr_cpu_min (r : Option RawResources) :
    0.1 ≤ (normalizeResources r).cpu := le_max_left 0.1 _

theorem nr_memory_min (r : Option RawResources) :
    0.1 ≤ (normalizeResources r).memory := le_max_left 0.1 _

theorem nr_disk_min (r : Option RawResources) :
    1 ≤ (normalizeResources r).diskIo := le_max_left 1 _

theorem nr_network_min (r : Option RawResources) :
    1 ≤ (normalizeResources r).networkIo := le_max_left 1 _

theorem nr_storage_min (r : Option RawResources) :
    1 ≤ (normalizeResources r).storage := le_max_left 1 _

theorem nr_statsd_one_le (r : Option RawResources) :
    1 ≤ (normalizeResources r).statsdInstances := le_max_left 1 _

theorem nr_carbon_one_le (r : Option RawResources) :
    1 ≤ (normalizeResources r).carbonInstances := le_max_left 1 _

theorem totalMetrics_nonneg (w : Option RawWorkload) :
    0 ≤ totalMetricsPerSecond (normalizeWorkload w) :=
  mul_nonneg (nw_rps_nonneg w) (nw_mpr_nonneg w)

theorem unique_nonneg (w : Option RawWorkload) :
    0 ≤ uniqueMetricsPerSecond (normalizeWorkload w) := by
  unfold uniqueMetricsPerSecond
  have h : 0 ≤ totalMetricsPerSecond (normalizeWorkload w) *
      (normalizeWorkload w).uniqueMetricsRatio :=
    mul_nonneg (totalMetrics_nonneg w) (nw_uratio_nonneg w)
  exact_mod_cast Int.ceil_nonneg h

theorem writes_nonneg (w : Option RawWorkload) :
    0 ≤ writesPerSecond (normalizeWorkload w) := unique_nonneg w

theorem randomIoFactor_pos (w : Option RawWorkload) :
    0 < randomIoFactor (normalizeWorkload w) := by
  unfold randomIoFactor
  have := unique_nonneg w
  nlinarith

theorem diskScalingFactor_nonneg (r : Option RawResources) :
    0 ≤ diskScalingFactor (normalizeResources r) := by
  unfold diskScalingFactor ioCoordinationOverhead
  have hc := nr_carbon_one_le r
  have h1 : 0 ≤ 1 / (normalizeResources r).carbonInstances :=
    le_of_lt (by positivity)
  have h2 : (0:ℚ) ≤ 1 + 0.005 * ((normalizeResources r).carbonInstances - 1) := by
    nlinarith
  exact mul_nonneg h1 h2

theorem bytesPerOperation_pos : 0 < bytesPerOperation := by
  unfold bytesPerOperation effectiveBlockSize metadataOverhead
  norm_num [ceil_as_floor]

theorem diskIops_nonneg (w : Option RawWorkload) (r : Option RawResources) :
    0 ≤ diskIopsRequired (normalizeWorkload w) (normalizeResources r) := by
  unfold diskIopsRequired effectiveIopsPerWrite baseIopsPerWrite
  have h1 := writes_nonneg w
  have h2 := le_of_lt (randomIoFactor_pos w)
  have h3 := diskScalingFactor_nonneg r
  positivity

theorem diskIORequired_nonneg (w : Option RawWorkload) (r : Option RawResources) :
    0 ≤ diskIORequired (normalizeWorkload w) (normalizeResources r) := by
  unfold diskIORequired
  have h : 0 ≤ diskIopsRequired (normalizeWorkload w) (normalizeResources r) *
      bytesPerOperation / (1024 * 1024) * 10 := by
    have h1 := diskIops_nonneg w r
    have h2 := le_of_lt bytesPerOperation_pos
    positivity
  have hc : (0:ℤ) ≤ ⌈diskIopsRequired (normalizeWorkload w) (normalizeResources r) *
      bytesPerOperation / (1024 * 1024) * 10⌉ := Int.ceil_nonneg h
  have hq : (0:ℚ) ≤ ((⌈diskIopsRequired (normalizeWorkload w) (normalizeResources r) *
      bytesPerOperation / (1024 * 1024) * 10⌉ : ℤ) : ℚ) := by exact_mod_cast hc
  linarith

theorem clientTraffic_nonneg (w : Option RawWorkload) :
    0 ≤ clientStatsDTraffic (normalizeWorkload w) := by
  unfold clientStatsDTraffic avgMetricSizeBytes
  have := totalMetrics_nonneg w
  positivity

theorem queryTraffic_nonneg (w : Option RawWorkload) :
    0 ≤ queryTrafficMbps (normalizeWorkload w) := by
  unfold queryTrafficMbps
  have h1 := clientTraffic_nonneg w
  have h2 : (0:ℚ) ≤ (normalizeWorkload w).calculationComplexity :=
    le_trans (by norm_num) (nw_complexity_one_le w)
  positivity

theorem totalNetworkRequired_nonneg (w : Option RawWorkload) :
    0 ≤ totalNetworkRequired (normalizeWorkload w) := by
  unfold totalNetworkRequired
  have h : 0 ≤ (maxInboundTraffic (normalizeWorkload w) +
      queryTrafficMbps (normalizeWorkload w)) * 10 := by
    have h1 : 0 ≤ maxInboundTraffic (normalizeWorkload w) :=
      le_trans (clientTraffic_nonneg w) (le_max_left _ _)
    have h2 := queryTraffic_nonneg w
    positivity
  have hc : (0:ℤ) ≤ ⌈(maxInboundTraffic (normalizeWorkload w) +
      queryTrafficMbps (normalizeWorkload w)) * 10⌉ := Int.ceil_nonneg h
  have hq : (0:ℚ) ≤ ((⌈(maxInboundTraffic (normalizeWorkload w) +
      queryTrafficMbps (normalizeWorkload w)) * 10⌉ : ℤ) : ℚ) := by exact_mod_cast hc
  linarith

theorem dailyStorage_nonneg (w : Option RawWorkload) :
    0 ≤ dailyStorageGB (normalizeWorkload w) := by
  unfold dailyStorageGB pointsPerMetricPerDay bytesPerStoredPoint
  have := unique_nonneg w
  positivity

theorem calc_cpu (log10 : ℚ → ℚ) (w : Option RawWorkload) (r : Option RawResources) :
    (calculateResourceRequirements log10 w r).requirements.cpu =
      { value := ceil10 (totalCpuRequired log10 (normalizeWorkload w) (normalizeResources r))
        status := getResourceStatus
          (totalCpuRequired log10 (normalizeWorkload w) (normalizeResources r))
          (normalizeResources r).cpu
        utilization := totalCpuRequired log10 (normalizeWorkload w) (normalizeResources r) /
          (normalizeResources r).cpu } := rfl

theorem calc_memory (log10 : ℚ → ℚ) (w : Option RawWorkload) (r : Option RawResources) :
    (calculateResourceRequirements log10 w r).requirements.memory =
      { value := ceil10 (totalMemoryRequired (normalizeWorkload w) (normalizeResources r))
        status := getResourceStatus
          (totalMemoryRequired (normalizeWorkload w) (normalizeResources r))
          (normalizeResources r).memory
        utilization := totalMemoryRequired (normalizeWorkload w) (normalizeResources r) /
          (normalizeResources r).memory } := rfl

theorem calc_disk (log10 : ℚ → ℚ) (w : Option RawWorkload) (r : Option RawResources) :
    (calculateResourceRequirements log10 w r).requirements.diskIo =
      { value := diskIORequired (normalizeWorkload w) (normalizeResources r)
        status := getResourceStatus
          (diskIORequired (normalizeWorkload w) (normalizeResources r))
          (normalizeResources r).diskIo
        utilization := diskIORequired (normalizeWorkload w) (normalizeResources r) /
          (normalizeResources r).diskIo } := rfl

theorem calc_network (log10 : ℚ → ℚ) (w : Option RawWorkload) (r : Option RawResources) :
    (calculateResourceRequirements log10 w r).requirements.networkIo =
      { value := totalNetworkRequired (normalizeWorkload w)
        status := getResourceStatus (totalNetworkRequired (normalizeWorkload w))
          (normalizeResources r).networkIo
        utilization := totalNetworkRequired (normalizeWorkload w) /
          (normalizeResources r).networkIo } := rfl

theorem calc_storage (log10 : ℚ → ℚ) (w : Option RawWorkload) (r : Option RawResources) :
    (calculateResourceRequirements log10 w r).requirements.storage =
      { value := ceil10 (dailyStorageGB (normalizeWorkload w))
        status := getResourceStatus
          (dailyStorageGB (normalizeWorkload w) * (normalizeWorkload w).retentionPeriodDays)
          (normalizeResources r).storage
        utilization := dailyStorageGB (normalizeWorkload w) *
          (normalizeWorkload w).retentionPeriodDays / (normalizeResources r).storage } := rfl

theorem calc_flow (log10 : ℚ → ℚ) (w : Option RawWorkload) (r : Option RawResources) :
    (calculateResourceRequirements log10 w r).flowMetrics =
      { totalMetricsPerSecond := totalMetricsPerSecond (normalizeWorkload w)
        uniqueMetricsPerSecond := uniqueMetricsPerSecond (normalizeWorkload w)
        writesPerSecond := writesPerSecond (normalizeWorkload w)
        storagePerDay := dailyStorageGB (normalizeWorkload w)
        metricsPerInstance := metricsPerInstance (normalizeWorkload w) (normalizeResources r)
        writesPerInstance := writesPerInstance (normalizeWorkload w) (normalizeResources r)
        totalStorageRequired := dailyStorageGB (normalizeWorkload w) *
          (normalizeWorkload w).retentionPeriodDays } := rfl

theorem statusSpec_mk (v req av : ℚ) :
    statusSpec { value := v, status := getResourceStatus req av, utilization := req / av } := by
  unfold statusSpec getResourceStatus
  dsimp only
  split_ifs with h1 h2 <;>
    refine ⟨?_, ?_, ?_⟩ <;> simp_all <;> try linarith

theorem bestLoop_fst :
    ∀ (l : List (ℚ × ℚ)) (b i : ℚ), (bestLoop l b i).1 = (l.map Prod.snd).foldl min b
  | [], b, i => by simp [bestLoop]
  | p :: rest, b, i => by
    simp only [bestLoop, List.map_cons, List.foldl_cons]
    split_ifs with h
    · rw [bestLoop_fst rest p.2 p.1, min_eq_right (le_of_lt h)]
    · rw [bestLoop_fst rest b i, min_eq_left (le_of_not_lt h)]

theorem bestLoop_mem :
    ∀ (l : List (ℚ × ℚ)) (b i : ℚ),
      bestLoop l b i = (b, i) ∨ ((bestLoop l b i).2, (bestLoop l b i).1) ∈ l
  | [], _, _ => Or.inl rfl
  | p :: rest, b, i => by
    simp only [bestLoop]
    split_ifs with h
    · rcases bestLoop_mem rest p.2 p.1 with heq | hmem
      · right
        rw [heq]
        exact List.mem_cons_self p rest
      · right
        exact List.mem_cons_of_mem p hmem
    · rcases bestLoop_mem rest b i with heq | hmem
      · exact Or.inl heq
      · right
        exact List.mem_cons_of_mem p hmem

theorem look3_not_digit_head {x : Char} (hx : x.isDigit = false) :
    ∀ l, look3 (x :: l) = false := by
  intro l
  rcases l with _ | ⟨a, _ | ⟨b, _ | ⟨c, t⟩⟩⟩ <;> simp [look3, hx]

theorem look3_append_dot :
    ∀ (xs ys : List Char), look3 (xs ++ '.' :: ys) = look3 (xs ++ ['.'])
  | [], ys => by
    rw [List.nil_append, List.nil_append,
      look3_not_digit_head (by decide) ys, look3_not_digit_head (by decide) []]
  | [a], ys => by
    rcases ys with _ | ⟨y, _ | ⟨z, t⟩⟩ <;> simp [look3]
  | [a, b], ys => by
    rcases ys with _ | ⟨y, t⟩ <;> simp [look3]
  | [a, b, c], ys => by
    rcases ys with _ | ⟨y, t⟩ <;> simp [look3]
  | a :: b :: c :: d :: rest, ys => by
    have ih := look3_append_dot (d :: rest) ys
    simp only [List.cons_append] at ih
    simp only [List.cons_append, look3, List.append_eq]
    rw [ih]

theorem look3_dot_cons (f : List Char) : look3 ('.' :: f) = false := by
  have h := look3_append_dot [] f
  simpa using h

theorem insertCommas_append_dot :
    ∀ (p : Char) (a f : List Char),
      insertCommas p (a ++ '.' :: f) = insertCommas p (a ++ ['.']) ++ insertCommas '.' f
  | p, [], f => by
    simp only [List.nil_append, insertCommas, look3_dot_cons, Bool.and_false,
      Bool.false_eq_true, if_false, List.cons_append, List.nil_append]
  | p, c :: a, f => by
    have ih := insertCommas_append_dot c a f
    have hl := look3_append_dot (c :: a) f
    simp only [List.cons_append] at hl
    simp only [List.cons_append, insertCommas, List.append_eq, hl]
    split_ifs with h
    · simp [ih]
    · simp [ih]

theorem insertCommas_dot_short (f : List Char) (hlen : f.length ≤ 3) :
    insertCommas '.' f = f := by
  have hw : isWordChar '.' = false := rfl
  rcases f with _ | ⟨a, _ | ⟨b, _ | ⟨c, _ | ⟨d, t⟩⟩⟩⟩
  · rfl
  · simp [insertCommas, hw, look3]
  · simp [insertCommas, hw, look3]
  · simp [insertCommas, hw, look3]
  · simp at hlen

theorem formatNumber_short_fraction (c : Char) (a f : List Char)
    (hlen : f.length ≤ 3) :
    formatNumber (String.mk (c :: (a ++ '.' :: f))) =
      String.mk ((formatNumber (String.mk (c :: (a ++ ['.'])))).toList ++ f) := by
  show String.mk (c :: insertCommas c (a ++ '.' :: f)) = _
  rw [insertCommas_append_dot, insertCommas_dot_short f hlen]
  rfl

/-- Claim C1, counterexample: with empty (`null`) workload and resources,
`estimate` returns `totalMetricsPerSecond = 0` as claimed, but the disk,
network and storage `Resource.value` fields are `0`, contradicting the
claim that every `Resource.value` is strictly positive.  (The
repository's own regression test acknowledges this: "they might be 0
with empty input".) -/
theorem estimate_empty_values_zero :
    (calculateResourceRequirements (fun _ => 0) none none).flowMetrics.totalMetricsPerSecond = 0 ∧
    (calculateResourceRequirements (fun _ => 0) none none).requirements.diskIo.value = 0 ∧
    (calculateResourceRequirements (fun _ => 0) none none).requirements.networkIo.value = 0 ∧
    (calculateResourceRequirements (fun _ => 0) none none).requirements.storage.value = 0 := by
  refine ⟨?_, ?_, ?_, ?_⟩ <;>
    norm_num [calculateResourceRequirements, normalizeWorkload, normalizeResources, jsOr,
      Option.bind, totalMetricsPerSecond, uniqueMetricsPerSecond, writesPerSecond,
      diskIORequired, diskIopsRequired, effectiveIopsPerWrite, baseIopsPerWrite,
      randomIoFactor, diskScalingFactor, ioCoordinationOverhead, bytesPerOperation,
      effectiveBlockSize, metadataOverhead, totalNetworkRequired, maxInboundTraffic,
      clientStatsDTraffic, statsdToCarbonTraffic, statsdToCarbonRatio, queryTrafficMbps,
      avgMetricSizeBytes, dailyStorageGB, pointsPerMetricPerDay, bytesPerStoredPoint,
      ceil10, ceil_as_floor]

/-- Claim C1 (amended): `estimate` is a total function on arbitrary
(possibly `null`/partial/negative) inputs; the cpu and memory values are
always strictly positive, the disk, network and storage values and all
five utilizations are always nonnegative; and with empty inputs
`totalMetricsPerSecond = 0` while the disk, network and storage values
are exactly `0` (cpu and memory stay positive by the universal part). -/
theorem estimate_value_positivity (log10 : ℚ → ℚ)
    (w : Option RawWorkload) (r : Option RawResources) :
    (0 < (calculateResourceRequirements log10 w r).requirements.cpu.value ∧
      0 < (calculateResourceRequirements log10 w r).requirements.memory.value ∧
      0 ≤ (calculateResourceRequirements log10 w r).requirements.diskIo.value ∧
      0 ≤ (calculateResourceRequirements log10 w r).requirements.networkIo.value ∧
      0 ≤ (calculateResourceRequirements log10 w r).requirements.storage.value) ∧
    (0 ≤ (calculateResourceRequirements log10 w r).requirements.cpu.utilization ∧
      0 ≤ (calculateResourceRequirements log10 w r).requirements.memory.utilization ∧
      0 ≤ (calculateResourceRequirements log10 w r).requirements.diskIo.utilization ∧
      0 ≤ (calculateResourceRequirements log10 w r).requirements.networkIo.utilization ∧
      0 ≤ (calculateResourceRequirements log10 w r).requirements.storage.utilization) ∧
    ((calculateResourceRequirements log10 none none).flowMetrics.totalMetricsPerSecond = 0 ∧
      (calculateResourceRequirements log10 none none).requirements.diskIo.value = 0 ∧
      (calculateResourceRequirements log10 none none).requirements.networkIo.value = 0 ∧
      (calculateResourceRequirements log10 none none).requirements.storage.value = 0) := by
  have hcpu_req : (0.1 : ℚ) ≤ totalCpuRequired log10 (normalizeWorkload w) (normalizeResources r) :=
    le_max_left _ _
  have hmem_req : (0.5 : ℚ) ≤ totalMemoryRequired (normalizeWorkload w) (normalizeResources r) :=
    le_max_left _ _
  refine ⟨⟨?_, ?_, ?_, ?_, ?_⟩, ⟨?_, ?_, ?_, ?_, ?_⟩, ?_, ?_, ?_, ?_⟩
  · simp only [calc_cpu]
    have h2 := le_ceil10 (totalCpuRequired log10 (normalizeWorkload w) (normalizeResources r))
    linarith
  · simp only [calc_memory]
    have h2 := le_ceil10 (totalMemoryRequired (normalizeWorkload w) (normalizeResources r))
    linarith
  · simp only [calc_disk]
    exact diskIORequired_nonneg w r
  · simp only [calc_network]
    exact totalNetworkRequired_nonneg w
  · simp only [calc_storage]
    exact ceil10_nonneg (dailyStorage_nonneg w)
  · simp only [calc_cpu]
    exact div_nonneg (by linarith) (by have := nr_cpu_min r; linarith)
  · simp only [calc_memory]
    exact div_nonneg (by linarith) (by have := nr_memory_min r; linarith)
  · simp only [calc_disk]
    exact div_nonneg (diskIORequired_nonneg w r) (by have := nr_disk_min r; linarith)
  · simp only [calc_network]
    exact div_nonneg (totalNetworkRequired_nonneg w) (by have := nr_network_min r; linarith)
  · simp only [calc_storage]
    refine div_nonneg (mul_nonneg (dailyStorage_nonneg w) ?_)
      (by have := nr_storage_min r; linarith)
    have := nw_retention_one_le w
    linarith
  · simp only [calc_flow]
    norm_num [totalMetricsPerSecond, normalizeWorkload, jsOr, Option.bind]
  · simp only [calc_disk]
    norm_num [normalizeWorkload, normalizeResources, jsOr, Option.bind,
      totalMetricsPerSecond, uniqueMetricsPerSecond, writesPerSecond,
      diskIORequired, diskIopsRequired, effectiveIopsPerWrite, baseIopsPerWrite,
      randomIoFactor, diskScalingFactor, ioCoordinationOverhead, bytesPerOperation,
      effectiveBlockSize, metadataOverhead, ceil_as_floor]
  · simp only [calc_network]
    norm_num [normalizeWorkload, jsOr, Option.bind, totalMetricsPerSecond,
      totalNetworkRequired, maxInboundTraffic, clientStatsDTraffic, statsdToCarbonTraffic,
      statsdToCarbonRatio, queryTrafficMbps, avgMetricSizeBytes, ceil_as_floor]
  · simp only [calc_storage]
    norm_num [normalizeWorkload, jsOr, Option.bind, totalMetricsPerSecond,
      uniqueMetricsPerSecond, dailyStorageGB, pointsPerMetricPerDay, bytesPerStoredPoint,
      ceil10, ceil_as_floor]

theorem ceil_div_lt_ceil {t N : ℚ} (ht : 2 ≤ t) (hN : 2 ≤ N) :
    (⌈t / N⌉ : ℤ) < ⌈t⌉ := by
  have hc2 : (2 : ℤ) ≤ ⌈t⌉ := by
    by_contra hcon
    push_neg at hcon
    have h1 : (⌈t⌉ : ℤ) ≤ 1 := by omega
    have h2 : t ≤ ((1 : ℤ) : ℚ) := Int.ceil_le.mp h1
    norm_num at h2
    linarith
  have hcq : (2 : ℚ) ≤ ((⌈t⌉ : ℤ) : ℚ) := by exact_mod_cast hc2
  have hle := Int.le_ceil t
  have hstep : t / N ≤ ((⌈t⌉ : ℤ) : ℚ) - 1 := by
    have ht0 : (0 : ℚ) ≤ t := by linarith
    have hdiv : t / N ≤ t / 2 := by gcongr
    have h2 : t / 2 ≤ ((⌈t⌉ : ℤ) : ℚ) / 2 := by linarith
    linarith
  have hmid : (⌈t / N⌉ : ℤ) ≤ ⌈((⌈t⌉ : ℤ) : ℚ) - 1⌉ := Int.ceil_le_ceil hstep
  rw [show (((⌈t⌉ : ℤ) : ℚ) - 1) = (((⌈t⌉ - 1 : ℤ) : ℤ) : ℚ) by push_cast; ring,
    Int.ceil_intCast] at hmid
  omega

/-- Claim C2, counterexample: with zero workload, raising
`statsdInstances` from 1 to 4 leaves `metricsPerInstance` unchanged
(both are `0`), so the claimed strict decrease fails on that input. -/
theorem metricsPerInstance_zero_workload :
    (calculateResourceRequirements (fun _ => 0) none
        (some { RawResources.empty with statsdInstances := some 4 })).flowMetrics.metricsPerInstance =
      (calculateResourceRequirements (fun _ => 0) none
        (some { RawResources.empty with statsdInstances := some 1 })).flowMetrics.metricsPerInstance := by
  simp only [calc_flow]
  norm_num [metricsPerInstance, totalMetricsPerSecond, normalizeWorkload, normalizeResources,
    jsOr, Option.bind, RawResources.empty, ceil_as_floor]

/-- Claim C2 (amended): the five flow-metric equations hold for every
input; raising `statsdInstances` from 1 to `N ≥ 2` strictly decreases
`metricsPerInstance` provided the normalized `totalMetricsPerSecond` is
at least 2 (it fails for a zero workload); and the worked example
`requestsPerSecond = 1000, metricsPerRequest = 10, uniqueMetricsRatio = 0.2`
yields `totalMetricsPerSecond = 10000` and `uniqueMetricsPerSecond = 2000`. -/
theorem flow_metrics_spec (log10 : ℚ → ℚ) (w : Option RawWorkload) (r : Option RawResources)
    (rb : RawResources) (N : ℚ) :
    ((calculateResourceRequirements log10 w r).flowMetrics.totalMetricsPerSecond =
        (normalizeWorkload w).requestsPerSecond * (normalizeWorkload w).metricsPerRequest ∧
      (calculateResourceRequirements log10 w r).flowMetrics.uniqueMetricsPerSecond =
        ((⌈(calculateResourceRequirements log10 w r).flowMetrics.totalMetricsPerSecond *
            (normalizeWorkload w).uniqueMetricsRatio⌉ : ℤ) : ℚ) ∧
      (calculateResourceRequirements log10 w r).flowMetrics.writesPerSecond =
        (calculateResourceRequirements log10 w r).flowMetrics.uniqueMetricsPerSecond ∧
      (calculateResourceRequirements log10 w r).flowMetrics.metricsPerInstance =
        ((⌈(calculateResourceRequirements log10 w r).flowMetrics.totalMetricsPerSecond /
            (normalizeResources r).statsdInstances⌉ : ℤ) : ℚ) ∧
      (calculateResourceRequirements log10 w r).flowMetrics.writesPerInstance =
        ((⌈(calculateResourceRequirements log10 w r).flowMetrics.writesPerSecond /
            (normalizeResources r).carbonInstances⌉ : ℤ) : ℚ)) ∧
    (2 ≤ N → 2 ≤ totalMetricsPerSecond (normalizeWorkload w) →
      (calculateResourceRequirements log10 w
        (some { rb with statsdInstances := some N })).flowMetrics.metricsPerInstance <
      (calculateResourceRequirements log10 w
        (some { rb with statsdInstances := some 1 })).flowMetrics.metricsPerInstance) ∧
    ((calculateResourceRequirements log10
        (some { requestsPerSecond := some 1000, metricsPerRequest := some 10,
                uniqueMetricsRatio := some 0.2 }) none).flowMetrics.totalMetricsPerSecond = 10000 ∧
      (calculateResourceRequirements log10
        (some { requestsPerSecond := some 1000, metricsPerRequest := some 10,
                uniqueMetricsRatio := some 0.2 }) none).flowMetrics.uniqueMetricsPerSecond = 2000) := by
  refine ⟨⟨rfl, rfl, rfl, rfl, rfl⟩, ?_, ?_, ?_⟩
  · intro hN htot
    simp only [calc_flow]
    have hN0 : N ≠ 0 := by intro h; rw [h] at hN; norm_num at hN
    have hsrN : (normalizeResources (some { rb with statsdInstances := some N })).statsdInstances = N := by
      show max 1 (jsOr (some N) 1) = N
      simp only [jsOr]
      rw [if_neg hN0]
      exact max_eq_right (by linarith)
    have hsr1 : (normalizeResources (some { rb with statsdInstances := some 1 })).statsdInstances = 1 := by
      show max 1 (jsOr (some 1) 1) = 1
      norm_num [jsOr]
    unfold metricsPerInstance
    rw [hsrN, hsr1, div_one]
    exact_mod_cast ceil_div_lt_ceil htot hN
  · simp only [calc_flow]
    norm_num [totalMetricsPerSecond, normalizeWorkload, jsOr, Option.bind]
  · simp only [calc_flow]
    norm_num [uniqueMetricsPerSecond, totalMetricsPerSecond, normalizeWorkload, jsOr,
      Option.bind, ceil_as_floor]

/-- Claim C2 witness: at the worked example with `uniqueMetricsRatio = 0.2`
(total 10000 ≥ 2) and `N = 4 ≥ 2`, the strict decrease holds. -/
theorem flow_metrics_spec_witness :
    (calculateResourceRequirements (fun _ => 0)
        (some { requestsPerSecond := some 1000, metricsPerRequest := some 10,
                uniqueMetricsRatio := some 0.2 })
        (some { RawResources.empty with statsdInstances := some 4 })).flowMetrics.metricsPerInstance <
      (calculateResourceRequirements (fun _ => 0)
        (some { requestsPerSecond := some 1000, metricsPerRequest := some 10,
                uniqueMetricsRatio := some 0.2 })
        (some { RawResources.empty with statsdInstances := some 1 })).flowMetrics.metricsPerInstance :=
  (flow_metrics_spec (fun _ => 0)
    (some { requestsPerSecond := some 1000, metricsPerRequest := some 10,
            uniqueMetricsRatio := some 0.2 }) none RawResources.empty 4).2.1
    (by norm_num)
    (by norm_num [totalMetricsPerSecond, normalizeWorkload, jsOr, Option.bind])

/-- Claim C3: for each of the five resources, the reported status is
`critical` iff utilization exceeds 0.9, `warning` iff it lies in
(0.7, 0.9], and `healthy` iff it is at most 0.7, where utilization is
required over available; the shared classifier is applied identically by
every estimator. -/
theorem status_thresholds (log10 : ℚ → ℚ) (w : Option RawWorkload) (r : Option RawResources) :
    statusSpec (calculateResourceRequirements log10 w r).requirements.cpu ∧
    statusSpec (calculateResourceRequirements log10 w r).requirements.memory ∧
    statusSpec (calculateResourceRequirements log10 w r).requirements.diskIo ∧
    statusSpec (calculateResourceRequirements log10 w r).requirements.networkIo ∧
    statusSpec (calculateResourceRequirements log10 w r).requirements.storage := by
  refine ⟨?_, ?_, ?_, ?_, ?_⟩
  · rw [calc_cpu]
    exact statusSpec_mk _ _ _
  · rw [calc_memory]
    exact statusSpec_mk _ _ _
  · rw [calc_disk]
    exact statusSpec_mk _ _ _
  · rw [calc_network]
    exact statusSpec_mk _ _ _
  · rw [calc_storage]
    exact statusSpec_mk _ _ _

/-- Claim C4: the CPU estimator computes exactly the spec's formula -
collector tier `(total/10000)(1 + log10(max 1 (total/10000))) * 0.6` and
writer tier `(writes/5000)(1 + log10(max 1 (writes/5000))) * 1.2`, each
distributed as `cost/instances + cost * rate * (instances - 1)` with
rates 1.5% and 1%, plus fixed cost `(complexity/5)(1 + complexity/10) * 0.4`,
floored at 0.1 core; the reported value is that total rounded up to one
decimal and the utilization is the unrounded total over available cpu. -/
theorem cpu_estimator_formula (log10 : ℚ → ℚ) (w : Option RawWorkload) (r : Option RawResources) :
    (calculateResourceRequirements log10 w r).requirements.cpu.value =
      ceil10 (cpuTotalSpec log10 (normalizeWorkload w) (normalizeResources r)) ∧
    (calculateResourceRequirements log10 w r).requirements.cpu.utilization =
      cpuTotalSpec log10 (normalizeWorkload w) (normalizeResources r) /
        (normalizeResources r).cpu :=
  ⟨rfl, rfl⟩

theorem networkIo_update_invariant (rb : RawResources) (s1 c1 s2 c2 : Option ℚ) :
    (normalizeResources
      (some { rb with statsdInstances := s1, carbonInstances := c1 })).networkIo =
      (normalizeResources
        (some { rb with statsdInstances := s2, carbonInstances := c2 })).networkIo := rfl

theorem vIS_collector_cpuEfficiency (log10 : ℚ → ℚ) (w : Option RawWorkload)
    (r : Option RawResources) :
    (validateInstanceScaling log10 w r).collectorScaling.cpuEfficiency =
      collectorCpuEfficiency log10 w (Option.getD r RawResources.empty) := rfl

theorem vIS_processor_diskIoEfficiency (log10 : ℚ → ℚ) (w : Option RawWorkload)
    (r : Option RawResources) :
    (validateInstanceScaling log10 w r).processorScaling.diskIoEfficiency =
      processorDiskIoEfficiency log10 w (Option.getD r RawResources.empty) := rfl

theorem vIS_collector_networkOverhead (log10 : ℚ → ℚ) (w : Option RawWorkload)
    (r : Option RawResources) :
    (validateInstanceScaling log10 w r).collectorScaling.networkOverhead =
      collectorNetworkOverhead log10 w (Option.getD r RawResources.empty) := rfl

theorem vIS_collectorIdealCount (log10 : ℚ → ℚ) (w : Option RawWorkload)
    (r : Option RawResources) :
    (validateInstanceScaling log10 w r).analysis.collectorIdealCount =
      (bestLoop (List.zip sweepCounts
        (collectorCpuEfficiency log10 w (Option.getD r RawResources.empty))) 1 1).2 := rfl

theorem vIS_processorIdealCount (log10 : ℚ → ℚ) (w : Option RawWorkload)
    (r : Option RawResources) :
    (validateInstanceScaling log10 w r).analysis.processorIdealCount =
      (bestLoop (List.zip sweepCounts
        (processorDiskIoEfficiency log10 w (Option.getD r RawResources.empty))) 1 1).2 := rfl

theorem vIS_collectorEfficiencyGain (log10 : ℚ → ℚ) (w : Option RawWorkload)
    (r : Option RawResources) :
    (validateInstanceScaling log10 w r).analysis.collectorEfficiencyGain =
      jsRound ((1 - (bestLoop (List.zip sweepCounts
        (collectorCpuEfficiency log10 w (Option.getD r RawResources.empty))) 1 1).1) *
          100 * 10) / 10 := rfl

theorem vIS_processorEfficiencyGain (log10 : ℚ → ℚ) (w : Option RawWorkload)
    (r : Option RawResources) :
    (validateInstanceScaling log10 w r).analysis.processorEfficiencyGain =
      jsRound ((1 - (bestLoop (List.zip sweepCounts
        (processorDiskIoEfficiency log10 w (Option.getD r RawResources.empty))) 1 1).1) *
          100 * 10) / 10 := rfl

theorem collectorCpuEfficiency_length (log10 : ℚ → ℚ) (w : Option RawWorkload)
    (base : RawResources) :
    (collectorCpuEfficiency log10 w base).length = sweepCounts.length := by
  simp [collectorCpuEfficiency, collectorResults]

theorem processorDiskIoEfficiency_length (log10 : ℚ → ℚ) (w : Option RawWorkload)
    (base : RawResources) :
    (processorDiskIoEfficiency log10 w base).length = sweepCounts.length := by
  simp [processorDiskIoEfficiency, processorResults]

set_option maxHeartbeats 2000000 in
/-- Claim C5, counterexample: for the workload `rps = 1000, mpr = 10,
ratio = 0.5` every CPU-log argument is exactly 1, and every
collector-sweep network ratio is exactly 1 - so under the claim the
collector tier's best ratio would be 1, its ideal count 1 and its gain
`(1 - 1) * 100 = 0`.  The code instead reports ideal count 4 and a gain
of 21.1 because it selects by the CPU-per-10k-metrics ratio, not the
network ratio. -/
theorem collector_ideal_not_network :
    (validateInstanceScaling (fun _ => 0)
      (some { requestsPerSecond := some 1000, metricsPerRequest := some 10,
              uniqueMetricsRatio := some (1/2) })
      none).collectorScaling.networkOverhead = [1, 1, 1, 1, 1, 1, 1, 1] ∧
    (validateInstanceScaling (fun _ => 0)
      (some { requestsPerSecond := some 1000, metricsPerRequest := some 10,
              uniqueMetricsRatio := some (1/2) })
      none).analysis.collectorIdealCount = 4 ∧
    (validateInstanceScaling (fun _ => 0)
      (some { requestsPerSecond := some 1000, metricsPerRequest := some 10,
              uniqueMetricsRatio := some (1/2) })
      none).analysis.collectorEfficiencyGain = 211 / 10 ∧
    (211 : ℚ) / 10 ≠ (1 - 1) * 100 := by
  refine ⟨?_, ?_, ?_, by norm_num⟩ <;>
    norm_num [validateInstanceScaling, collectorNetworkOverhead, collectorCpuEfficiency,
      collectorResults, baselineResult, sweepCounts, bestLoop, jsRound,
      calculateResourceRequirements, normalizeWorkload, normalizeResources, jsOr, Option.bind,
      RawResources.empty, ceil10,
      totalNetworkRequired, maxInboundTraffic, clientStatsDTraffic, statsdToCarbonTraffic,
      statsdToCarbonRatio, queryTrafficMbps, avgMetricSizeBytes,
      totalCpuRequired, statsdCpuCores, carbonCpuCores, graphiteCpuCores,
      singleInstanceStatsDCpu, singleInstanceCarbonCpu, totalStatsDLoad, totalWriteLoad,
      statsdCoordinationOverhead, carbonCoordinationOverhead,
      totalMetricsPerSecond, uniqueMetricsPerSecond, writesPerSecond, ceil_as_floor]

/-- Claim C5 (amended): for each tier the ideal count reported by the
explorer is a swept count attaining the minimum (over the sweep,
initialised at 1.0) of the tier-defining efficiency-ratio list - the
disk-I/O ratio list for the writer tier as the spec says, but the
CPU-per-10k-metrics ratio list (not the network ratio list) for the
collector tier - defaulting to 1 when no ratio improves on 1.0, and the
reported gain is `(1 - bestRatio) * 100` rounded to one decimal. -/
theorem explorer_ideal_argmin (log10 : ℚ → ℚ) (w : Option RawWorkload)
    (r : Option RawResources) :
    ((validateInstanceScaling log10 w r).analysis.collectorEfficiencyGain =
      jsRound ((1 - (validateInstanceScaling log10 w r).collectorScaling.cpuEfficiency.foldl min 1) *
        100 * 10) / 10) ∧
    ((validateInstanceScaling log10 w r).analysis.processorEfficiencyGain =
      jsRound ((1 - (validateInstanceScaling log10 w r).processorScaling.diskIoEfficiency.foldl min 1) *
        100 * 10) / 10) ∧
    ((validateInstanceScaling log10 w r).analysis.collectorIdealCount = 1 ∨
      ((validateInstanceScaling log10 w r).analysis.collectorIdealCount,
        (validateInstanceScaling log10 w r).collectorScaling.cpuEfficiency.foldl min 1) ∈
        List.zip sweepCounts (validateInstanceScaling log10 w r).collectorScaling.cpuEfficiency) ∧
    ((validateInstanceScaling log10 w r).analysis.processorIdealCount = 1 ∨
      ((validateInstanceScaling log10 w r).analysis.processorIdealCount,
        (validateInstanceScaling log10 w r).processorScaling.diskIoEfficiency.foldl min 1) ∈
        List.zip sweepCounts (validateInstanceScaling log10 w r).processorScaling.diskIoEfficiency) := by
  have hsndC : (List.zip sweepCounts
      (collectorCpuEfficiency log10 w (Option.getD r RawResources.empty))).map Prod.snd =
      collectorCpuEfficiency log10 w (Option.getD r RawResources.empty) :=
    List.map_snd_zip _ _ (le_of_eq (collectorCpuEfficiency_length log10 w _))
  have hsndP : (List.zip sweepCounts
      (processorDiskIoEfficiency log10 w (Option.getD r RawResources.empty))).map Prod.snd =
      processorDiskIoEfficiency log10 w (Option.getD r RawResources.empty) :=
    List.map_snd_zip _ _ (le_of_eq (processorDiskIoEfficiency_length log10 w _))
  have hfstC := bestLoop_fst (List.zip sweepCounts
    (collectorCpuEfficiency log10 w (Option.getD r RawResources.empty))) 1 1
  rw [hsndC] at hfstC
  have hfstP := bestLoop_fst (List.zip sweepCounts
    (processorDiskIoEfficiency log10 w (Option.getD r RawResources.empty))) 1 1
  rw [hsndP] at hfstP
  refine ⟨?_, ?_, ?_, ?_⟩
  · rw [vIS_collectorEfficiencyGain, vIS_collector_cpuEfficiency, hfstC]
  · rw [vIS_processorEfficiencyGain, vIS_processor_diskIoEfficiency, hfstP]
  · rcases bestLoop_mem (List.zip sweepCounts
        (collectorCpuEfficiency log10 w (Option.getD r RawResources.empty))) 1 1 with heq | hmem
    · left
      rw [vIS_collectorIdealCount, heq]
    · right
      rw [vIS_collectorIdealCount, vIS_collector_cpuEfficiency, ← hfstC]
      exact hmem
  · rcases bestLoop_mem (List.zip sweepCounts
        (processorDiskIoEfficiency log10 w (Option.getD r RawResources.empty))) 1 1 with heq | hmem
    · left
      rw [vIS_processorIdealCount, heq]
    · right
      rw [vIS_processorIdealCount, vIS_processor_diskIoEfficiency, ← hfstP]
      exact hmem

/-- Claim C6, counterexample: a negative `uniqueMetricsRatio` input is
clamped to `0`, which is neither positive nor one of the two throughput
drivers (`requestsPerSecond`, `metricsPerRequest`), so "every output
field is finite and positive (or zero for the two throughput drivers)"
fails. -/
theorem normalize_ratio_zero_on_negative :
    (normalizeWorkload
      (some { uniqueMetricsRatio := some (-1) })).uniqueMetricsRatio = 0 := by
  norm_num [normalizeWorkload, jsOr, Option.bind]

/-- Claim C6 (amended): the normalizer always produces fully populated
records with `requestsPerSecond, metricsPerRequest ≥ 0`,
`0 ≤ uniqueMetricsRatio ≤ 1`, `calculationComplexity,
flushIntervalSeconds, retentionPeriodDays ≥ 1`, `cpu, memory ≥ 0.1` and
`diskIO, networkIO, storage, statsdInstances, carbonInstances ≥ 1`; every
field is positive except the two throughput drivers and
`uniqueMetricsRatio`, which may be zero. -/
theorem normalizer_bounds (w : Option RawWorkload) (r : Option RawResources) :
    (0 ≤ (normalizeWorkload w).requestsPerSecond ∧
      0 ≤ (normalizeWorkload w).metricsPerRequest ∧
      0 ≤ (normalizeWorkload w).uniqueMetricsRatio ∧
      (normalizeWorkload w).uniqueMetricsRatio ≤ 1 ∧
      1 ≤ (normalizeWorkload w).calculationComplexity ∧
      1 ≤ (normalizeWorkload w).flushIntervalSeconds ∧
      1 ≤ (normalizeWorkload w).retentionPeriodDays) ∧
    (0.1 ≤ (normalizeResources r).cpu ∧
      0.1 ≤ (normalizeResources r).memory ∧
      1 ≤ (normalizeResources r).diskIo ∧
      1 ≤ (normalizeResources r).networkIo ∧
      1 ≤ (normalizeResources r).storage ∧
      1 ≤ (normalizeResources r).statsdInstances ∧
      1 ≤ (normalizeResources r).carbonInstances) :=
  ⟨⟨nw_rps_nonneg w, nw_mpr_nonneg w, nw_uratio_nonneg w, nw_uratio_le_one w,
    nw_complexity_one_le w, nw_flush_one_le w, nw_retention_one_le w⟩,
   ⟨nr_cpu_min r, nr_memory_min r, nr_disk_min r, nr_network_min r, nr_storage_min r,
    nr_statsd_one_le r, nr_carbon_one_le r⟩⟩

theorem dsf_le {γ δ : ℚ} (h1 : 1 ≤ γ) (hle : γ ≤ δ) :
    1 / δ * (1 + ioCoordinationOverhead * (δ - 1)) ≤
      1 / γ * (1 + ioCoordinationOverhead * (γ - 1)) := by
  have hγ : (0 : ℚ) < γ := by linarith
  have hδ : (0 : ℚ) < δ := by linarith
  have hγ0 : γ ≠ 0 := ne_of_gt hγ
  have hδ0 : δ ≠ 0 := ne_of_gt hδ
  have e1 : 1 / γ * (1 + ioCoordinationOverhead * (γ - 1)) = 0.995 / γ + 0.005 := by
    unfold ioCoordinationOverhead
    field_simp
    ring
  have e2 : 1 / δ * (1 + ioCoordinationOverhead * (δ - 1)) = 0.995 / δ + 0.005 := by
    unfold ioCoordinationOverhead
    field_simp
    ring
  rw [e1, e2]
  have h : (0.995 : ℚ) / δ ≤ 0.995 / γ := by gcongr
  linarith

theorem dsf_lt {γ δ : ℚ} (h1 : 1 ≤ γ) (hlt : γ < δ) :
    1 / δ * (1 + ioCoordinationOverhead * (δ - 1)) <
      1 / γ * (1 + ioCoordinationOverhead * (γ - 1)) := by
  have hγ : (0 : ℚ) < γ := by linarith
  have hδ : (0 : ℚ) < δ := by linarith
  have hγ0 : γ ≠ 0 := ne_of_gt hγ
  have hδ0 : δ ≠ 0 := ne_of_gt hδ
  have e1 : 1 / γ * (1 + ioCoordinationOverhead * (γ - 1)) = 0.995 / γ + 0.005 := by
    unfold ioCoordinationOverhead
    field_simp
    ring
  have e2 : 1 / δ * (1 + ioCoordinationOverhead * (δ - 1)) = 0.995 / δ + 0.005 := by
    unfold ioCoordinationOverhead
    field_simp
    ring
  rw [e1, e2]
  have h : (0.995 : ℚ) / δ < 0.995 / γ := by gcongr <;> norm_num
  linarith

/-- Claim C7, counterexample: with zero workload the disk value is `0`
for every carbon instance count, so increasing `carbonInstances` does
not strictly decrease it. -/
theorem disk_value_zero_workload :
    (calculateResourceRequirements (fun _ => 0) none
        (some { RawResources.empty with carbonInstances := some 2 })).requirements.diskIo.value =
      (calculateResourceRequirements (fun _ => 0) none
        (some { RawResources.empty with carbonInstances := some 1 })).requirements.diskIo.value := by
  simp only [calc_disk]
  norm_num [diskIORequired, diskIopsRequired, effectiveIopsPerWrite, baseIopsPerWrite,
    randomIoFactor, diskScalingFactor, ioCoordinationOverhead, bytesPerOperation,
    effectiveBlockSize, metadataOverhead, writesPerSecond, uniqueMetricsPerSecond,
    totalMetricsPerSecond, normalizeWorkload, normalizeResources, jsOr, Option.bind,
    RawResources.empty, ceil_as_floor]

/-- Claim C7 (amended): the reported disk value is non-increasing in
`carbonInstances` (all else fixed); the underlying `diskIopsRequired`
strictly decreases whenever `writesPerSecond > 0`; and in the reference
configuration (the repository's scaling-test workload and base
resources) the value at 4x instances is below half the value at 1
instance. -/
theorem disk_scaling (log10 : ℚ → ℚ) (w : Option RawWorkload) (rb : RawResources)
    (c c' : ℚ) (h1 : 1 ≤ c) (hle : c ≤ c') :
    ((calculateResourceRequirements log10 w
        (some { rb with carbonInstances := some c' })).requirements.diskIo.value ≤
      (calculateResourceRequirements log10 w
        (some { rb with carbonInstances := some c })).requirements.diskIo.value) ∧
    (0 < writesPerSecond (normalizeWorkload w) → c < c' →
      diskIopsRequired (normalizeWorkload w)
          (normalizeResources (some { rb with carbonInstances := some c' })) <
        diskIopsRequired (normalizeWorkload w)
          (normalizeResources (some { rb with carbonInstances := some c }))) ∧
    ((calculateResourceRequirements log10
        (some { requestsPerSecond := some 2000, metricsPerRequest := some 100,
                uniqueMetricsRatio := some 0.25, calculationComplexity := some 3,
                flushIntervalSeconds := some 10, retentionPeriodDays := some 30 })
        (some { cpu := some 8, memory := some 16, diskIo := some 200,
                networkIo := some 1000, storage := some 1000,
                statsdInstances := some 1, carbonInstances := some 4 })).requirements.diskIo.value /
      (calculateResourceRequirements log10
        (some { requestsPerSecond := some 2000, metricsPerRequest := some 100,
                uniqueMetricsRatio := some 0.25, calculationComplexity := some 3,
                flushIntervalSeconds := some 10, retentionPeriodDays := some 30 })
        (some { cpu := some 8, memory := some 16, diskIo := some 200,
                networkIo := some 1000, storage := some 1000,
                statsdInstances := some 1, carbonInstances := some 1 })).requirements.diskIo.value <
      1 / 2) := by
  have hc : (0 : ℚ) < c := lt_of_lt_of_le one_pos h1
  have hc' : (0 : ℚ) < c' := lt_of_lt_of_le hc hle
  have hcN : (normalizeResources
      (some { rb with carbonInstances := some c })).carbonInstances = c := by
    show max 1 (jsOr (some c) 1) = c
    simp only [jsOr]
    rw [if_neg (ne_of_gt hc)]
    exact max_eq_right h1
  have hc'N : (normalizeResources
      (some { rb with carbonInstances := some c' })).carbonInstances = c' := by
    show max 1 (jsOr (some c') 1) = c'
    simp only [jsOr]
    rw [if_neg (ne_of_gt hc')]
    exact max_eq_right (le_trans h1 hle)
  have hiops : diskIopsRequired (normalizeWorkload w)
      (normalizeResources (some { rb with carbonInstances := some c' })) ≤
      diskIopsRequired (normalizeWorkload w)
        (normalizeResources (some { rb with carbonInstances := some c })) := by
    unfold diskIopsRequired effectiveIopsPerWrite diskScalingFactor
    rw [hcN, hc'N]
    have hd := dsf_le h1 hle
    have hbase : (0 : ℚ) ≤ baseIopsPerWrite := by norm_num [baseIopsPerWrite]
    have hrf := le_of_lt (randomIoFactor_pos w)
    have h2 : baseIopsPerWrite * randomIoFactor (normalizeWorkload w) *
        (1 / c' * (1 + ioCoordinationOverhead * (c' - 1))) ≤
        baseIopsPerWrite * randomIoFactor (normalizeWorkload w) *
        (1 / c * (1 + ioCoordinationOverhead * (c - 1))) :=
      mul_le_mul_of_nonneg_left hd (mul_nonneg hbase hrf)
    exact mul_le_mul_of_nonneg_left h2 (writes_nonneg w)
  refine ⟨?_, ?_, ?_⟩
  · simp only [calc_disk]
    unfold diskIORequired
    have hbp := bytesPerOperation_pos
    have hA : diskIopsRequired (normalizeWorkload w)
        (normalizeResources (some { rb with carbonInstances := some c' })) *
          bytesPerOperation / (1024 * 1024) * 10 ≤
        diskIopsRequired (normalizeWorkload w)
          (normalizeResources (some { rb with carbonInstances := some c })) *
          bytesPerOperation / (1024 * 1024) * 10 := by
      gcongr
    have hcc := Int.ceil_le_ceil hA
    have hqq : ((⌈diskIopsRequired (normalizeWorkload w)
        (normalizeResources (some { rb with carbonInstances := some c' })) *
          bytesPerOperation / (1024 * 1024) * 10⌉ : ℤ) : ℚ) ≤
        ((⌈diskIopsRequired (normalizeWorkload w)
          (normalizeResources (some { rb with carbonInstances := some c })) *
          bytesPerOperation / (1024 * 1024) * 10⌉ : ℤ) : ℚ) := by exact_mod_cast hcc
    linarith
  · intro hw hlt
    unfold diskIopsRequired effectiveIopsPerWrite diskScalingFactor
    rw [hcN, hc'N]
    have hd := dsf_lt h1 hlt
    have hpos : (0 : ℚ) < writesPerSecond (normalizeWorkload w) *
        (baseIopsPerWrite * randomIoFactor (normalizeWorkload w)) :=
      mul_pos hw (mul_pos (by norm_num [baseIopsPerWrite]) (randomIoFactor_pos w))
    have hre : ∀ x : ℚ, writesPerSecond (normalizeWorkload w) *
        (baseIopsPerWrite * randomIoFactor (normalizeWorkload w) * x) =
        writesPerSecond (normalizeWorkload w) *
          (baseIopsPerWrite * randomIoFactor (normalizeWorkload w)) * x := by
      intro x
      ring
    rw [hre, hre]
    exact mul_lt_mul_of_pos_left hd hpos
  · have h4v : (calculateResourceRequirements log10
        (some { requestsPerSecond := some 2000, metricsPerRequest := some 100,
                uniqueMetricsRatio := some 0.25, calculationComplexity := some 3,
                flushIntervalSeconds := some 10, retentionPeriodDays := some 30 })
        (some { cpu := some 8, memory := some 16, diskIo := some 200,
                networkIo := some 1000, storage := some 1000,
                statsdInstances := some 1, carbonInstances := some 4 })).requirements.diskIo.value =
        1235 / 2 := by
      simp only [calc_disk]
      norm_num [diskIORequired, diskIopsRequired, effectiveIopsPerWrite, baseIopsPerWrite,
        randomIoFactor, diskScalingFactor, ioCoordinationOverhead, bytesPerOperation,
        effectiveBlockSize, metadataOverhead, writesPerSecond, uniqueMetricsPerSecond,
        totalMetricsPerSecond, normalizeWorkload, normalizeResources, jsOr, Option.bind,
        ceil_as_floor]
    have h1v : (calculateResourceRequirements log10
        (some { requestsPerSecond := some 2000, metricsPerRequest := some 100,
                uniqueMetricsRatio := some 0.25, calculationComplexity := some 3,
                flushIntervalSeconds := some 10, retentionPeriodDays := some 30 })
        (some { cpu := some 8, memory := some 16, diskIo := some 200,
                networkIo := some 1000, storage := some 1000,
                statsdInstances := some 1, carbonInstances := some 1 })).requirements.diskIo.value =
        24333 / 10 := by
      simp only [calc_disk]
      norm_num [diskIORequired, diskIopsRequired, effectiveIopsPerWrite, baseIopsPerWrite,
        randomIoFactor, diskScalingFactor, ioCoordinationOverhead, bytesPerOperation,
        effectiveBlockSize, metadataOverhead, writesPerSecond, uniqueMetricsPerSecond,
        totalMetricsPerSecond, normalizeWorkload, normalizeResources, jsOr, Option.bind,
        ceil_as_floor]
    rw [h4v, h1v]
    norm_num

/-- Claim C7 witness: with writes 5000 > 0 and carbon raised from 1 to
2, `diskIopsRequired` strictly decreases. -/
theorem disk_scaling_witness :
    diskIopsRequired
        (normalizeWorkload (some { requestsPerSecond := some 1000,
                                   metricsPerRequest := some 10,
                                   uniqueMetricsRatio := some (1/2) }))
        (normalizeResources (some { RawResources.empty with carbonInstances := some 2 })) <
      diskIopsRequired
        (normalizeWorkload (some { requestsPerSecond := some 1000,
                                   metricsPerRequest := some 10,
                                   uniqueMetricsRatio := some (1/2) }))
        (normalizeResources (some { RawResources.empty with carbonInstances := some 1 })) :=
  (disk_scaling (fun _ => 0)
    (some { requestsPerSecond := some 1000, metricsPerRequest := some 10,
            uniqueMetricsRatio := some (1/2) })
    RawResources.empty 1 2 le_rfl (by norm_num)).2.1
    (by norm_num [writesPerSecond, uniqueMetricsPerSecond, totalMetricsPerSecond,
      normalizeWorkload, jsOr, Option.bind, ceil_as_floor])
    (by norm_num)

/-- Claim C8: for raw retention `d ≥ 1` (the data-model invariant),
doubling `retentionPeriodDays` exactly doubles
`flowMetrics.totalStorageRequired` (hence within the claimed 10%), the
reported storage value (daily growth) and `storagePerDay` are unchanged,
and `totalStorageRequired = storagePerDay * retentionPeriodDays`. -/
theorem storage_retention (log10 : ℚ → ℚ) (wb : RawWorkload) (r : Option RawResources)
    (d : ℚ) (hd : 1 ≤ d) :
    ((calculateResourceRequirements log10
        (some { wb with retentionPeriodDays := some (2 * d) }) r).flowMetrics.totalStorageRequired =
      2 * (calculateResourceRequirements log10
        (some { wb with retentionPeriodDays := some d }) r).flowMetrics.totalStorageRequired) ∧
    ((calculateResourceRequirements log10
        (some { wb with retentionPeriodDays := some (2 * d) }) r).requirements.storage.value =
      (calculateResourceRequirements log10
        (some { wb with retentionPeriodDays := some d }) r).requirements.storage.value) ∧
    ((calculateResourceRequirements log10
        (some { wb with retentionPeriodDays := some (2 * d) }) r).flowMetrics.storagePerDay =
      (calculateResourceRequirements log10
        (some { wb with retentionPeriodDays := some d }) r).flowMetrics.storagePerDay) ∧
    ((calculateResourceRequirements log10
        (some { wb with retentionPeriodDays := some d }) r).flowMetrics.totalStorageRequired =
      (calculateResourceRequirements log10
          (some { wb with retentionPeriodDays := some d }) r).flowMetrics.storagePerDay *
        (normalizeWorkload (some { wb with retentionPeriodDays := some d })).retentionPeriodDays) := by
  have hd0 : d ≠ 0 := by
    intro h
    rw [h] at hd
    norm_num at hd
  have h2d0 : 2 * d ≠ 0 := ne_of_gt (by linarith)
  have hret1 : (normalizeWorkload
      (some { wb with retentionPeriodDays := some d })).retentionPeriodDays = d := by
    show max 1 (jsOr (some d) 1) = d
    simp only [jsOr]
    rw [if_neg hd0]
    exact max_eq_right hd
  have hret2 : (normalizeWorkload
      (some { wb with retentionPeriodDays := some (2 * d) })).retentionPeriodDays = 2 * d := by
    show max 1 (jsOr (some (2 * d)) 1) = 2 * d
    simp only [jsOr]
    rw [if_neg h2d0]
    exact max_eq_right (by linarith)
  have hdaily : dailyStorageGB (normalizeWorkload
      (some { wb with retentionPeriodDays := some (2 * d) })) =
      dailyStorageGB (normalizeWorkload
        (some { wb with retentionPeriodDays := some d })) := rfl
  refine ⟨?_, rfl, rfl, rfl⟩
  simp only [calc_flow]
  rw [hdaily, hret1, hret2]
  ring

/-- Claim C8 witness: at `d = 1` with the empty base workload. -/
theorem storage_retention_witness :
    (calculateResourceRequirements (fun _ => 0)
        (some { RawWorkload.empty with retentionPeriodDays := some (2 * 1) })
        none).flowMetrics.totalStorageRequired =
      2 * (calculateResourceRequirements (fun _ => 0)
        (some { RawWorkload.empty with retentionPeriodDays := some 1 })
        none).flowMetrics.totalStorageRequired :=
  (storage_retention (fun _ => 0) RawWorkload.empty none 1 le_rfl).1

/-- Claim C9, counterexample: `formatNumber` also inserts a comma inside
a six-digit fractional portion - `0.123456` formats as `"0.123,456"` -
so the digits after the decimal point are not always unchanged. -/
theorem formatNumber_fraction_comma :
    formatNumber "0.123456" = "0.123,456" ∧
    formatNumber "0.123456" ≠ "0.123456" :=
  ⟨by decide, by decide⟩

/-- Claim C9 (amended): the cited examples hold, and the fractional
portion is unchanged whenever it has at most three digits (the global
regex also fires inside longer fractional portions, as the
counterexample shows): for any head character, middle segment and final
fraction `f` with `f.length ≤ 3`, formatting `head ++ middle ++ "." ++ f`
equals formatting `head ++ middle ++ "."` with `f` appended verbatim. -/
theorem formatNumber_spec :
    formatNumber "1234.56" = "1,234.56" ∧
    formatNumber "1000000" = "1,000,000" ∧
    formatNumber "0" = "0" ∧
    ∀ (c : Char) (a f : List Char), f.length ≤ 3 →
      formatNumber (String.mk (c :: (a ++ '.' :: f))) =
        String.mk ((formatNumber (String.mk (c :: (a ++ ['.'])))).toList ++ f) :=
  ⟨by decide, by decide, by decide, formatNumber_short_fraction⟩

/-- Claim C9 witness: the fraction-preservation part at `"1.5"`. -/
theorem formatNumber_spec_witness :
    (['5'] : List Char).length ≤ 3 ∧
      formatNumber (String.mk ('1' :: ([] ++ '.' :: ['5']))) =
        String.mk ((formatNumber (String.mk ('1' :: ([] ++ ['.'])))).toList ++ ['5']) :=
  ⟨by decide, formatNumber_spec.2.2.2 '1' [] ['5'] (by decide)⟩

/-- Claim C10, counterexample: with zero workload the baseline network
value is `0`, so every collector-sweep network ratio is `0/0` - `NaN`
in JavaScript, `0` in this rational embedding - and in either semantics
not `1`; "the explorer's collector-sweep network ratio is always
exactly 1" fails on that input. -/
theorem network_ratio_zero_workload :
    (validateInstanceScaling (fun _ => 0) none none).collectorScaling.networkOverhead =
      [0, 0, 0, 0, 0, 0, 0, 0] := by
  rw [vIS_collector_networkOverhead]
  unfold collectorNetworkOverhead collectorResults baselineResult
  simp only [List.map_map, Function.comp_def, calc_network]
  norm_num [totalNetworkRequired, maxInboundTraffic, clientStatsDTraffic,
    statsdToCarbonTraffic, statsdToCarbonRatio, queryTrafficMbps, avgMetricSizeBytes,
    totalMetricsPerSecond, normalizeWorkload, jsOr, Option.bind, RawResources.empty,
    ceil_as_floor, sweepCounts]

/-- Claim C10 (amended): the reported network value, utilization and
status are independent of both `statsdInstances` and `carbonInstances`
(the per-instance divisions feed only the explanation string, which is
presentation-only); the reported value is
`round10(max(clientTraffic, 0.3 * clientTraffic) + queryTraffic)`; and
the collector-sweep network ratio is exactly 1 whenever the baseline
network value is nonzero (with a zero workload it is 0/0, `NaN` in JS,
not 1). -/
theorem network_instance_independent (log10 : ℚ → ℚ) (w : Option RawWorkload)
    (rb : RawResources) (s1 c1 s2 c2 : Option ℚ) :
    ((calculateResourceRequirements log10 w
        (some { rb with statsdInstances := s1, carbonInstances := c1 })).requirements.networkIo.value =
      (calculateResourceRequirements log10 w
        (some { rb with statsdInstances := s2, carbonInstances := c2 })).requirements.networkIo.value) ∧
    ((calculateResourceRequirements log10 w
        (some { rb with statsdInstances := s1, carbonInstances := c1 })).requirements.networkIo.utilization =
      (calculateResourceRequirements log10 w
        (some { rb with statsdInstances := s2, carbonInstances := c2 })).requirements.networkIo.utilization) ∧
    ((calculateResourceRequirements log10 w
        (some { rb with statsdInstances := s1, carbonInstances := c1 })).requirements.networkIo.status =
      (calculateResourceRequirements log10 w
        (some { rb with statsdInstances := s2, carbonInstances := c2 })).requirements.networkIo.status) ∧
    ((calculateResourceRequirements log10 w (some rb)).requirements.networkIo.value =
      ((⌈(max (clientStatsDTraffic (normalizeWorkload w))
            (clientStatsDTraffic (normalizeWorkload w) * statsdToCarbonRatio) +
          queryTrafficMbps (normalizeWorkload w)) * 10⌉ : ℤ) : ℚ) / 10) ∧
    (0 < totalNetworkRequired (normalizeWorkload w) →
      (validateInstanceScaling log10 w (some rb)).collectorScaling.networkOverhead =
        [1, 1, 1, 1, 1, 1, 1, 1]) := by
  refine ⟨?_, ?_, ?_, ?_, ?_⟩
  · simp only [calc_network]
  · simp only [calc_network]
    rw [networkIo_update_invariant rb s1 c1 s2 c2]
  · simp only [calc_network]
    rw [networkIo_update_invariant rb s1 c1 s2 c2]
  · simp only [calc_network]
    rfl
  intro hne
  rw [vIS_collector_networkOverhead]
  show collectorNetworkOverhead log10 w rb = _
  unfold collectorNetworkOverhead collectorResults baselineResult
  simp only [List.map_map, Function.comp_def, calc_network]
  simp only [div_self (ne_of_gt hne)]
  simp [sweepCounts]

/-- Claim C10 witness: with the worked-example workload the baseline
network value is positive and the sweep ratios are all exactly 1. -/
theorem network_instance_independent_witness :
    (validateInstanceScaling (fun _ => 0)
        (some { requestsPerSecond := some 1000, metricsPerRequest := some 10,
                uniqueMetricsRatio := some 0.2 })
        (some RawResources.empty)).collectorScaling.networkOverhead =
      [1, 1, 1, 1, 1, 1, 1, 1] :=
  (network_instance_independent (fun _ => 0)
    (some { requestsPerSecond := some 1000, metricsPerRequest := some 10,
            uniqueMetricsRatio := some 0.2 })
    RawResources.empty none none none none).2.2.2.2
    (by norm_num [totalNetworkRequired, maxInboundTraffic, clientStatsDTraffic,
      statsdToCarbonTraffic, statsdToCarbonRatio, queryTrafficMbps, avgMetricSizeBytes,
      totalMetricsPerSecond, normalizeWorkload, jsOr, Option.bind, ceil_as_floor])

end Simulator
